import Mathlib

/-!
Shallow embedding of the inventory-insight core
(`src/data_loader.py` and `src/insights.py`).

The tabular library (pandas) stores the numeric columns as IEEE doubles.
We idealise a double as an exact rational extended with the three special
points the code can actually produce: `nan` (the missing marker produced
by `pd.to_numeric(..., errors="coerce")` and by undefined arithmetic) and
the two infinities (produced by division of a nonzero value by zero).
Rounding and signed zero are idealised away; every operation below follows
the IEEE special-value rules that numpy/pandas implement.
-/

/-- A cell value of a numeric column: an IEEE double idealised as an exact
rational plus `nan` and the two infinities. -/
inductive Val where
  | nan : Val
  | ninf : Val
  | pinf : Val
  | num : ℚ → Val
deriving DecidableEq, Repr

namespace Val

/-- IEEE subtraction. -/
def sub : Val → Val → Val
  | nan, _ => nan
  | _, nan => nan
  | pinf, pinf => nan
  | pinf, ninf => pinf
  | pinf, num _ => pinf
  | ninf, ninf => nan
  | ninf, pinf => ninf
  | ninf, num _ => ninf
  | num _, pinf => ninf
  | num _, ninf => pinf
  | num a, num b => num (a - b)

/-- IEEE addition. -/
def add : Val → Val → Val
  | nan, _ => nan
  | _, nan => nan
  | pinf, pinf => pinf
  | pinf, ninf => nan
  | pinf, num _ => pinf
  | ninf, ninf => ninf
  | ninf, pinf => nan
  | ninf, num _ => ninf
  | num _, pinf => pinf
  | num _, ninf => ninf
  | num a, num b => num (a + b)

/-- IEEE multiplication (`∞ × 0 = nan`). -/
def mul : Val → Val → Val
  | nan, _ => nan
  | _, nan => nan
  | pinf, pinf => pinf
  | pinf, ninf => ninf
  | ninf, pinf => ninf
  | ninf, ninf => pinf
  | pinf, num q => if q = 0 then nan else if 0 < q then pinf else ninf
  | num q, pinf => if q = 0 then nan else if 0 < q then pinf else ninf
  | ninf, num q => if q = 0 then nan else if 0 < q then ninf else pinf
  | num q, ninf => if q = 0 then nan else if 0 < q then ninf else pinf
  | num a, num b => num (a * b)

/-- IEEE division: `x / 0` is `±∞` for nonzero finite `x`, `0 / 0` is `nan`,
`∞ / ∞` is `nan`, and a finite value divided by `±∞` is `0`. -/
def div : Val → Val → Val
  | nan, _ => nan
  | _, nan => nan
  | pinf, pinf => nan
  | pinf, ninf => nan
  | ninf, pinf => nan
  | ninf, ninf => nan
  | pinf, num q => if 0 ≤ q then pinf else ninf
  | ninf, num q => if 0 ≤ q then ninf else pinf
  | num _, pinf => num 0
  | num _, ninf => num 0
  | num a, num b =>
      if b = 0 then (if a = 0 then nan else if 0 < a then pinf else ninf)
      else num (a / b)

/-- IEEE `≤`: any comparison with `nan` is false. -/
def leb : Val → Val → Bool
  | nan, _ => false
  | _, nan => false
  | ninf, _ => true
  | pinf, pinf => true
  | pinf, _ => false
  | num _, pinf => true
  | num _, ninf => false
  | num a, num b => decide (a ≤ b)

/-- IEEE `<`: any comparison with `nan` is false. -/
def ltb : Val → Val → Bool
  | nan, _ => false
  | _, nan => false
  | ninf, ninf => false
  | ninf, _ => true
  | pinf, _ => false
  | num _, pinf => true
  | num _, ninf => false
  | num a, num b => decide (a < b)

/-- Is this the missing marker? -/
def isNan : Val → Bool
  | nan => true
  | _ => false

end Val

/-- `a` may be placed before `b` when sorting in descending order with
missing values last (`sort_values(..., ascending=False, na_position="last")`). -/
def dnl (a b : Val) : Bool :=
  match a, b with
  | .nan, .nan => true
  | .nan, _ => false
  | _, .nan => true
  | .pinf, _ => true
  | _, .pinf => false
  | .num _, .ninf => true
  | .ninf, .ninf => true
  | .ninf, .num _ => false
  | .num x, .num y => decide (y ≤ x)

/-- `a` may be placed before `b` when sorting in ascending order with
missing values last. -/
def anl (a b : Val) : Bool :=
  match a, b with
  | .nan, .nan => true
  | .nan, _ => false
  | _, .nan => true
  | .ninf, _ => true
  | _, .ninf => false
  | .num _, .pinf => true
  | .pinf, .pinf => true
  | .pinf, .num _ => false
  | .num x, .num y => decide (x ≤ y)

/-- A trivial tie-break comparator (used when the source sorts by a single
key, so every pair is comparable on the secondary position). -/
def anyRel : Val → Val → Bool := fun _ _ => true

/-- Two-key lexicographic comparator: compare on `k1` by `f1`, break ties
(equal `k1` values, which for IEEE keys means equal as cells, `nan`
included) on `k2` by `f2`.  This is the order `sort_values(by=[k1, k2])`
arranges rows into. -/
def lexRel (f1 : Val → Val → Bool) (k1 : α → Val)
    (f2 : Val → Val → Bool) (k2 : α → Val) (a b : α) : Bool :=
  if k1 a = k1 b then f2 (k2 a) (k2 b) else f1 (k1 a) (k1 b)

/-!
### Data model (`src/data_loader.py`)

A CSV cell of a numeric column either parses as a float (`numeric`) or does
not (`nonNumeric`); `pd.to_numeric(..., errors="coerce")` turns the latter
into the missing marker.  An empty cell is already `numeric Val.nan`
after `pd.read_csv`.  String cells are `Option String`, `none` being a
missing (NaN) cell.
-/

inductive Cell where
  | numeric (v : Val) : Cell
  | nonNumeric (s : String) : Cell
deriving DecidableEq, Repr

/-- `pd.to_numeric(..., errors="coerce")` applied to one cell. -/
def to_numeric : Cell → Val
  | .numeric v => v
  | .nonNumeric _ => Val.nan

/-- The fixed numeric-column list `NUMERIC_COLUMNS` of `data_loader.py`. -/
def NUMERIC_COLUMNS : List String :=
  ["Available_Quantity", "Average_Selling_Price", "Average_Buying_Price",
   "Total_Incoming", "Total_Outgoing", "Defective_Stock", "Total_Sold",
   "Monthly_Sale_Quantity", "Holding_Cost", "Average_Stock_Level",
   "Profit_Per_Unit", "Profit_After_HC"]

/-- One parsed CSV row, before cleaning. -/
structure CsvRow where
  Product_ID : Option String
  Product_Name : Option String
  Product_Brand : Option String
  Available_Quantity : Cell
  Average_Selling_Price : Cell
  Average_Buying_Price : Cell
  Total_Incoming : Cell
  Total_Outgoing : Cell
  Defective_Stock : Cell
  Total_Sold : Cell
  Monthly_Sale_Quantity : Cell
  Holding_Cost : Cell
  Average_Stock_Level : Cell
  Profit_Per_Unit : Cell
  Profit_After_HC : Cell
deriving DecidableEq, Repr

/-- One row after trimming and numeric coercion. -/
structure RawRow where
  Product_ID : Option String
  Product_Name : Option String
  Product_Brand : Option String
  Available_Quantity : Val
  Average_Selling_Price : Val
  Average_Buying_Price : Val
  Total_Incoming : Val
  Total_Outgoing : Val
  Defective_Stock : Val
  Total_Sold : Val
  Monthly_Sale_Quantity : Val
  Holding_Cost : Val
  Average_Stock_Level : Val
  Profit_Per_Unit : Val
  Profit_After_HC : Val
deriving DecidableEq, Repr

/-- One row of the enriched table: the raw columns plus the three derived
columns computed at load time. -/
structure Row extends RawRow where
  Profit : Val
  StockValue : Val
  ProfitMargin : Val
deriving DecidableEq, Repr

/-- `Series.str.strip()` on one cell of a string column. -/
def strip (s : Option String) : Option String := s.map (fun x => x.trim)

/-- Whitespace-trimming of the string columns followed by
`pd.to_numeric(..., errors="coerce")` on every listed numeric column. -/
def cleanRow (c : CsvRow) : RawRow where
  Product_ID := strip c.Product_ID
  Product_Name := strip c.Product_Name
  Product_Brand := strip c.Product_Brand
  Available_Quantity := to_numeric c.Available_Quantity
  Average_Selling_Price := to_numeric c.Average_Selling_Price
  Average_Buying_Price := to_numeric c.Average_Buying_Price
  Total_Incoming := to_numeric c.Total_Incoming
  Total_Outgoing := to_numeric c.Total_Outgoing
  Defective_Stock := to_numeric c.Defective_Stock
  Total_Sold := to_numeric c.Total_Sold
  Monthly_Sale_Quantity := to_numeric c.Monthly_Sale_Quantity
  Holding_Cost := to_numeric c.Holding_Cost
  Average_Stock_Level := to_numeric c.Average_Stock_Level
  Profit_Per_Unit := to_numeric c.Profit_Per_Unit
  Profit_After_HC := to_numeric c.Profit_After_HC

/-- The derived-column block of `load_inventory_data`:
`price_diff = ASP - ABP`; `Profit = price_diff * Total_Sold`;
`StockValue = Available_Quantity * ABP`;
`ProfitMargin = (price_diff / ABP) * 100`. -/
def enrichRow (r : RawRow) : Row :=
  let price_diff := Val.sub r.Average_Selling_Price r.Average_Buying_Price
  { r with
    Profit := Val.mul price_diff r.Total_Sold
    StockValue := Val.mul r.Available_Quantity r.Average_Buying_Price
    ProfitMargin := Val.mul (Val.div price_diff r.Average_Buying_Price) (Val.num 100) }

/-- A tabular frame: a column-name list plus the rows. -/
structure Frame (α : Type) where
  columns : List String
  rows : List α
deriving Repr

/-- The only fatal error of the loader. -/
inductive LoadError where
  | DataSourceNotFound : LoadError
deriving DecidableEq, Repr

/-- Column set of the enriched table: the source columns plus the three
derived columns appended in the order the loader creates them. -/
def enrichedColumns : List String :=
  ["Product_ID", "Product_Name", "Product_Brand"] ++ NUMERIC_COLUMNS
    ++ ["Profit", "StockValue", "ProfitMargin"]

/-- `load_inventory_data`: `none` models a path that does not resolve to an
existing file (the `csv_path.exists()` check fails and the loader raises);
`some rows` models an existing, parsed CSV file. -/
def load_inventory_data (file : Option (List CsvRow)) :
    Except LoadError (Frame Row) :=
  match file with
  | none => .error .DataSourceNotFound
  | some rows => .ok ⟨enrichedColumns, rows.map (fun r => enrichRow (cleanRow r))⟩

/-!
### Insight functions (`src/insights.py`)

Boolean masks are evaluated with the IEEE comparison semantics of the
column operators: a comparison against the missing marker is false, so
rows with a missing operand drop out of every filter.

`sort_values` with two `by`-columns uses a stable lexicographic sort
(`np.lexsort`) with `na_position="last"` per key; it is modeled by the
stable `List.insertionSort` under the matching total preorder.  A
single-key `sort_values` uses an unstable quicksort whose tie order is
unspecified; it is modeled with the same stable sort, and no property
below depends on the order of rows tied on a single sort key.
-/

/-- Row mask of `low_stock_profitable`:
`(Available_Quantity <= quantity_threshold) & (ProfitMargin >= margin_threshold)`. -/
def lowStockMask (quantity_threshold margin_threshold : ℚ) (r : Row) : Bool :=
  Val.leb r.Available_Quantity (Val.num quantity_threshold)
    && Val.leb (Val.num margin_threshold) r.ProfitMargin

/-- Projected row of `low_stock_profitable`. -/
structure LowOut where
  Product_ID : Option String
  Product_Name : Option String
  Available_Quantity : Val
  Profit : Val
  ProfitMargin : Val
deriving DecidableEq, Repr

def lowProj (r : Row) : LowOut where
  Product_ID := r.Product_ID
  Product_Name := r.Product_Name
  Available_Quantity := r.Available_Quantity
  Profit := r.Profit
  ProfitMargin := r.ProfitMargin

/-- Sort order of `low_stock_profitable`:
`sort_values(by=["ProfitMargin", "Profit"], ascending=False)`. -/
def lowRel (a b : LowOut) : Prop :=
  lexRel dnl (fun x => x.ProfitMargin) dnl (fun x => x.Profit) a b = true

instance : DecidableRel lowRel :=
  fun a b => inferInstanceAs (Decidable (_ = true))

def low_stock_profitable (df : Frame Row) (quantity_threshold : ℚ := 60)
    (margin_threshold : ℚ := 20) : Frame LowOut :=
  ⟨["Product_ID", "Product_Name", "Available_Quantity", "Profit", "ProfitMargin"],
   List.insertionSort lowRel
     ((df.rows.filter (lowStockMask quantity_threshold margin_threshold)).map lowProj)⟩

/-- Row mask of `overstock_low_profit`:
`(Available_Quantity >= quantity_threshold) & (ProfitMargin <= margin_threshold)`. -/
def overstockMask (quantity_threshold margin_threshold : ℚ) (r : Row) : Bool :=
  Val.leb (Val.num quantity_threshold) r.Available_Quantity
    && Val.leb r.ProfitMargin (Val.num margin_threshold)

/-- Projected row of `overstock_low_profit`. -/
structure OverOut where
  Product_ID : Option String
  Product_Name : Option String
  Product_Brand : Option String
  Available_Quantity : Val
  ProfitMargin : Val
  StockValue : Val
deriving DecidableEq, Repr

def overProj (r : Row) : OverOut where
  Product_ID := r.Product_ID
  Product_Name := r.Product_Name
  Product_Brand := r.Product_Brand
  Available_Quantity := r.Available_Quantity
  ProfitMargin := r.ProfitMargin
  StockValue := r.StockValue

/-- Sort order of `overstock_low_profit`:
`sort_values(by=["Available_Quantity", "ProfitMargin"], ascending=[False, True])`. -/
def overRel (a b : OverOut) : Prop :=
  lexRel dnl (fun x => x.Available_Quantity) anl (fun x => x.ProfitMargin) a b = true

instance : DecidableRel overRel :=
  fun a b => inferInstanceAs (Decidable (_ = true))

def overstock_low_profit (df : Frame Row) (quantity_threshold : ℚ := 200)
    (margin_threshold : ℚ := 10) : Frame OverOut :=
  ⟨["Product_ID", "Product_Name", "Product_Brand", "Available_Quantity",
    "ProfitMargin", "StockValue"],
   List.insertionSort overRel
     ((df.rows.filter (overstockMask quantity_threshold margin_threshold)).map overProj)⟩

/-- Pre-filter of `fast_moving_products`:
`(Average_Stock_Level > 0) & (Monthly_Sale_Quantity >= min_monthly_sales)`. -/
def fastPre (min_monthly_sales : ℚ) (r : Row) : Bool :=
  Val.ltb (Val.num 0) r.Average_Stock_Level
    && Val.leb (Val.num min_monthly_sales) r.Monthly_Sale_Quantity

/-- A row of `working_df` after the column assignment
`working_df["SellThroughRate"] = Total_Sold / Average_Stock_Level`. -/
structure WorkRow extends Row where
  SellThroughRate : Val
deriving DecidableEq, Repr

def assignSTR (r : Row) : WorkRow where
  toRow := r
  SellThroughRate := Val.div r.Total_Sold r.Average_Stock_Level

/-- Projected row of `fast_moving_products`. -/
structure FastOut where
  Product_ID : Option String
  Product_Name : Option String
  Monthly_Sale_Quantity : Val
  Average_Stock_Level : Val
  SellThroughRate : Val
  ProfitMargin : Val
deriving DecidableEq, Repr

def fastProj (w : WorkRow) : FastOut where
  Product_ID := w.Product_ID
  Product_Name := w.Product_Name
  Monthly_Sale_Quantity := w.Monthly_Sale_Quantity
  Average_Stock_Level := w.Average_Stock_Level
  SellThroughRate := w.SellThroughRate
  ProfitMargin := w.ProfitMargin

/-- Sort order of `fast_moving_products`:
`sort_values(by="SellThroughRate", ascending=False)` (single key). -/
def fastRel (a b : WorkRow) : Prop :=
  lexRel dnl (fun x => x.SellThroughRate) anyRel (fun _ => Val.nan) a b = true

instance : DecidableRel fastRel :=
  fun a b => inferInstanceAs (Decidable (_ = true))

/-- The `working_df` of `fast_moving_products`: the pre-filtered rows,
copied (`.copy()`) and extended with the transient `SellThroughRate`
column. -/
def workingRows (df : Frame Row) (min_monthly_sales : ℚ) : List WorkRow :=
  (df.rows.filter (fastPre min_monthly_sales)).map assignSTR

def fast_moving_products (df : Frame Row) (velocity_threshold : ℚ := 6 / 5)
    (min_monthly_sales : ℚ := 40) : Frame FastOut :=
  let working_df := workingRows df min_monthly_sales
  let insights := List.insertionSort fastRel
    (working_df.filter (fun w => Val.leb (Val.num velocity_threshold) w.SellThroughRate))
  ⟨["Product_ID", "Product_Name", "Monthly_Sale_Quantity", "Average_Stock_Level",
    "SellThroughRate", "ProfitMargin"],
   insights.map fastProj⟩

/-- `Series.sum()` with the pandas default `skipna=True, min_count=0`:
missing values are skipped and an all-missing (or empty) group sums to 0. -/
def nansum (l : List Val) : Val :=
  (l.filter (fun v => !v.isNan)).foldl Val.add (Val.num 0)

/-- `Series.mean()` with the pandas default `skipna=True`: missing values
are excluded; the mean over no present values is the missing marker. -/
def nanmean (l : List Val) : Val :=
  let xs := l.filter (fun v => !v.isNan)
  if xs.isEmpty then Val.nan
  else Val.div (xs.foldl Val.add (Val.num 0)) (Val.num xs.length)

/-- `Series.nunique()` (pandas default `dropna=True`): the number of
distinct present values. -/
def nunique (l : List (Option String)) : ℕ :=
  (l.filterMap id).dedup.length

/-- The rows of one `groupby("Product_Brand", dropna=False)` group; the
missing-brand rows (`none`) form their own group. -/
def groupRows (rows : List Row) (b : Option String) : List Row :=
  rows.filter (fun r => decide (r.Product_Brand = b))

/-- One row of the brand roll-up. -/
structure BrandRow where
  Product_Brand : Option String
  TotalProfit : Val
  TotalStockValue : Val
  AvgProfitMargin : Val
  SKUCount : ℕ
deriving DecidableEq, Repr

/-- The `agg` block of `brand_summary` for one group. -/
def brandAgg (rows : List Row) (b : Option String) : BrandRow where
  Product_Brand := b
  TotalProfit := nansum ((groupRows rows b).map (fun r => r.Profit))
  TotalStockValue := nansum ((groupRows rows b).map (fun r => r.StockValue))
  AvgProfitMargin := nanmean ((groupRows rows b).map (fun r => r.ProfitMargin))
  SKUCount := nunique ((groupRows rows b).map (fun r => r.Product_ID))

/-- Sort order of `brand_summary`:
`sort_values(by="TotalProfit", ascending=False)` (single key). -/
def brandRel (a b : BrandRow) : Prop :=
  lexRel dnl (fun x => x.TotalProfit) anyRel (fun _ => Val.nan) a b = true

instance : DecidableRel brandRel :=
  fun a b => inferInstanceAs (Decidable (_ = true))

def brand_summary (df : Frame Row) : Frame BrandRow :=
  ⟨["Product_Brand", "TotalProfit", "TotalStockValue", "AvgProfitMargin", "SKUCount"],
   List.insertionSort brandRel
     (((df.rows.map (fun r => r.Product_Brand)).dedup).map (brandAgg df.rows))⟩

/-!
### Call-level view of the insight functions

Each insight function only reads the enriched table and builds fresh
frames; the single in-place column assignment in the source,
`working_df["SellThroughRate"] = ...`, targets `working_df`, an explicit
`.copy()` of the filtered frame (modeled by building a fresh `WorkRow`
list).  The `*_call` forms make the caller's post-call view of the
enriched table explicit: the pair holds the returned sub-table and the
table the caller's reference denotes after the call returns.
-/

def low_stock_profitable_call (df : Frame Row) (quantity_threshold margin_threshold : ℚ) :
    Frame LowOut × Frame Row :=
  (low_stock_profitable df quantity_threshold margin_threshold, df)

def overstock_low_profit_call (df : Frame Row) (quantity_threshold margin_threshold : ℚ) :
    Frame OverOut × Frame Row :=
  (overstock_low_profit df quantity_threshold margin_threshold, df)

def fast_moving_products_call (df : Frame Row) (velocity_threshold min_monthly_sales : ℚ) :
    Frame FastOut × Frame Row :=
  (fast_moving_products df velocity_threshold min_monthly_sales, df)

def brand_summary_call (df : Frame Row) : Frame BrandRow × Frame Row :=
  (brand_summary df, df)

/-!
### Sample data

Small concrete rows used to instantiate the verified properties.
-/

/-- Build a raw (cleaned) row; the numeric columns not involved in any
derived column or insight are set to 0. -/
def mkRaw (pid pname pbrand : String) (qty sell buy sold monthly stock : ℚ) :
    RawRow where
  Product_ID := some pid
  Product_Name := some pname
  Product_Brand := some pbrand
  Available_Quantity := Val.num qty
  Average_Selling_Price := Val.num sell
  Average_Buying_Price := Val.num buy
  Total_Incoming := Val.num 0
  Total_Outgoing := Val.num 0
  Defective_Stock := Val.num 0
  Total_Sold := Val.num sold
  Monthly_Sale_Quantity := Val.num monthly
  Holding_Cost := Val.num 0
  Average_Stock_Level := Val.num stock
  Profit_Per_Unit := Val.num 0
  Profit_After_HC := Val.num 0

/-- A profitable, fast-moving widget. -/
def raw1 : RawRow := mkRaw "P1" "Widget" "Acme" 10 100 50 5 50 4

/-- A zero-margin, overstocked gadget. -/
def raw2 : RawRow := mkRaw "P2" "Gadget" "Acme" 500 80 80 0 10 0

/-- A row with buying price 0 and selling price 0: its margin is 0/0. -/
def raw3 : RawRow := mkRaw "P3" "Freebie" "NoBuy" 5 0 0 1 1 1

/-- A two-row enriched table. -/
def sampleFrame : Frame Row := ⟨enrichedColumns, [enrichRow raw1, enrichRow raw2]⟩

/-- An enriched table whose brand "NoBuy" group has only missing margins. -/
def sampleFrame3 : Frame Row := ⟨enrichedColumns, [enrichRow raw1, enrichRow raw3]⟩

/-- An enriched table with no rows. -/
def emptyFrame : Frame Row := ⟨enrichedColumns, []⟩

/-- A raw row with zero buying price but a positive selling price. -/
def rawC1 : RawRow := mkRaw "PX" "NoCost" "B" 1 100 0 1 1 1

/-- A CSV row with zero buying price but a positive selling price. -/
def csvC1 : CsvRow where
  Product_ID := some "PX"
  Product_Name := some "NoCost"
  Product_Brand := some "B"
  Available_Quantity := Cell.numeric (Val.num 1)
  Average_Selling_Price := Cell.numeric (Val.num 100)
  Average_Buying_Price := Cell.numeric (Val.num 0)
  Total_Incoming := Cell.numeric (Val.num 0)
  Total_Outgoing := Cell.numeric (Val.num 0)
  Defective_Stock := Cell.numeric (Val.num 0)
  Total_Sold := Cell.numeric (Val.num 1)
  Monthly_Sale_Quantity := Cell.numeric (Val.num 1)
  Holding_Cost := Cell.numeric (Val.num 0)
  Average_Stock_Level := Cell.numeric (Val.num 1)
  Profit_Per_Unit := Cell.numeric (Val.num 0)
  Profit_After_HC := Cell.numeric (Val.num 0)

/-- The working row the pre-filter keeps in the sample table. -/
def wC6 : WorkRow := assignSTR (enrichRow raw1)

/-!
### Verified properties

Basic facts about the IEEE value domain and the sort comparators, then
the formalised claims about the loader and the four insight functions.
-/

theorem Val.leb_nan_right : ∀ v : Val, leb v nan = false := by
  intro v; cases v <;> rfl

theorem Val.leb_nan_left : ∀ v : Val, leb nan v = false := by
  intro v; cases v <;> rfl

theorem Val.ltb_nan_right : ∀ v : Val, ltb v nan = false := by
  intro v; cases v <;> rfl

theorem Val.not_ltb_of_leb : ∀ {a b : Val}, leb a b = true → ltb b a = false := by
  intro a b h
  cases a <;> cases b <;> simp_all [leb, ltb] <;> linarith


theorem dnl_refl (a : Val) : dnl a a = true := by
  cases a <;> simp [dnl]

theorem dnl_total (a b : Val) : dnl a b = true ∨ dnl b a = true := by
  cases a <;> cases b <;> simp [dnl] <;> exact le_total _ _

theorem dnl_trans {a b c : Val} (h1 : dnl a b = true) (h2 : dnl b c = true) :
    dnl a c = true := by
  cases a <;> cases b <;> cases c <;> simp_all [dnl] <;> linarith

theorem dnl_antisymm {a b : Val} (h1 : dnl a b = true) (h2 : dnl b a = true) :
    a = b := by
  cases a <;> cases b <;> simp_all [dnl] <;> linarith

theorem anl_refl (a : Val) : anl a a = true := by
  cases a <;> simp [anl]

theorem anl_total (a b : Val) : anl a b = true ∨ anl b a = true := by
  cases a <;> cases b <;> simp [anl] <;> exact le_total _ _

theorem anl_trans {a b c : Val} (h1 : anl a b = true) (h2 : anl b c = true) :
    anl a c = true := by
  cases a <;> cases b <;> cases c <;> simp_all [anl] <;> linarith

theorem lexRel_total (f1 : Val → Val → Bool) (k1 : α → Val)
    (f2 : Val → Val → Bool) (k2 : α → Val)
    (h1 : ∀ x y, f1 x y = true ∨ f1 y x = true)
    (h2 : ∀ x y, f2 x y = true ∨ f2 y x = true) (a b : α) :
    lexRel f1 k1 f2 k2 a b = true ∨ lexRel f1 k1 f2 k2 b a = true := by
  unfold lexRel
  by_cases h : k1 a = k1 b
  · rw [if_pos h, if_pos h.symm]; exact h2 _ _
  · rw [if_neg h, if_neg (fun hh => h hh.symm)]; exact h1 _ _

theorem lexRel_trans (f1 : Val → Val → Bool) (k1 : α → Val)
    (f2 : Val → Val → Bool) (k2 : α → Val)
    (h1t : ∀ {x y z}, f1 x y = true → f1 y z = true → f1 x z = true)
    (h1a : ∀ {x y}, f1 x y = true → f1 y x = true → x = y)
    (h2t : ∀ {x y z}, f2 x y = true → f2 y z = true → f2 x z = true)
    {a b c : α}
    (hab : lexRel f1 k1 f2 k2 a b = true) (hbc : lexRel f1 k1 f2 k2 b c = true) :
    lexRel f1 k1 f2 k2 a c = true := by
  unfold lexRel at *
  by_cases hab1 : k1 a = k1 b
  · by_cases hbc1 : k1 b = k1 c
    · rw [if_pos hab1] at hab
      rw [if_pos hbc1] at hbc
      rw [if_pos (hab1.trans hbc1)]
      exact h2t hab hbc
    · rw [if_neg hbc1] at hbc
      have hac1 : k1 a ≠ k1 c := fun h => hbc1 (hab1.symm.trans h)
      rw [if_neg hac1, hab1]
      exact hbc
  · by_cases hbc1 : k1 b = k1 c
    · rw [if_neg hab1] at hab
      have hac1 : k1 a ≠ k1 c := fun h => hab1 (h.trans hbc1.symm)
      rw [if_neg hac1, ← hbc1]
      exact hab
    · rw [if_neg hab1] at hab
      rw [if_neg hbc1] at hbc
      have hac1 : k1 a ≠ k1 c := by
        intro h
        exact hab1 (h1a hab (h ▸ hbc))
      rw [if_neg hac1]
      exact h1t hab hbc

theorem lexRel_of_tie (f1 : Val → Val → Bool) (k1 : α → Val)
    (f2 : Val → Val → Bool) (k2 : α → Val)
    (h2r : ∀ x, f2 x x = true) {a b : α}
    (e1 : k1 a = k1 b) (e2 : k2 a = k2 b) :
    lexRel f1 k1 f2 k2 a b = true := by
  unfold lexRel
  rw [if_pos e1, e2]
  exact h2r _

theorem pairwise_filter_of_tied (R : α → α → Prop) (l : List α) (p : α → Bool)
    (hp : ∀ a b, p a = true → p b = true → R a b) :
    (l.filter p).Pairwise R := by
  induction l with
  | nil => simp
  | cons a t ih =>
    by_cases hpa : p a = true
    · rw [List.filter_cons_of_pos hpa]
      exact List.Pairwise.cons
        (fun b hb => hp _ _ hpa ((List.mem_filter.mp hb).2)) ih
    · rw [List.filter_cons_of_neg (by simpa using hpa)]
      exact ih

/-- Stability of a stable sort, phrased through filters: the rows carrying
any fixed combination of sort-key values appear in the output in exactly
their source order. -/
theorem insertionSort_filter_of_tied (R : α → α → Prop) [DecidableRel R]
    (l : List α) (p : α → Bool)
    (hp : ∀ a b, p a = true → p b = true → R a b) :
    (List.insertionSort R l).filter p = l.filter p := by
  have hmemp : ∀ x ∈ l.filter p, p x = true := fun x hx => (List.mem_filter.mp hx).2
  have hpw : (l.filter p).Pairwise R := pairwise_filter_of_tied R l p hp
  have hsub : List.Sublist (l.filter p) (List.insertionSort R l) :=
    List.sublist_insertionSort hpw (List.filter_sublist l)
  have hsub2 : List.Sublist (l.filter p) ((List.insertionSort R l).filter p) := by
    have h := hsub.filter p
    rwa [List.filter_eq_self.mpr hmemp] at h
  have hlen : ((List.insertionSort R l).filter p).length = (l.filter p).length :=
    ((List.perm_insertionSort R l).filter p).length_eq
  exact (hsub2.eq_of_length hlen.symm).symm

example : (enrichRow raw1).Profit = Val.num 250 := by
  norm_num [enrichRow, raw1, mkRaw, Val.sub, Val.mul]
example : (enrichRow raw1).ProfitMargin = Val.num 100 := by
  norm_num [enrichRow, raw1, mkRaw, Val.sub, Val.mul, Val.div]
example : (enrichRow raw2).ProfitMargin = Val.num 0 := by
  norm_num [enrichRow, raw2, mkRaw, Val.sub, Val.mul, Val.div]
example : (enrichRow raw3).ProfitMargin = Val.nan := by
  norm_num [enrichRow, raw3, mkRaw, Val.sub, Val.mul, Val.div]
example : (enrichRow (mkRaw "X" "X" "B" 1 100 0 1 1 1)).ProfitMargin = Val.pinf := by
  norm_num [enrichRow, mkRaw, Val.sub, Val.mul, Val.div]
example : (low_stock_profitable sampleFrame 60 20).rows =
    [lowProj (enrichRow raw1)] := by
  norm_num [low_stock_profitable, sampleFrame, lowStockMask, enrichRow, raw1, raw2, mkRaw,
    Val.sub, Val.mul, Val.div, Val.leb, List.filter, List.insertionSort, lowProj]
example : (fast_moving_products sampleFrame (6/5) 40).rows =
    [fastProj (assignSTR (enrichRow raw1))] := by
  norm_num [fast_moving_products, workingRows, sampleFrame, fastPre, enrichRow, raw1, raw2, mkRaw,
    Val.sub, Val.mul, Val.div, Val.leb, Val.ltb, List.filter, List.insertionSort, assignSTR, fastProj]
example : (brand_summary sampleFrame).rows.length = 1 := by
  norm_num [brand_summary, sampleFrame, enrichRow, raw1, raw2, mkRaw, List.dedup, List.insertionSort,
    List.pwFilter, brandAgg]

/-!
### Order-relation facts for the sort comparators
-/

theorem anyRel_total (x y : Val) : anyRel x y = true ∨ anyRel y x = true :=
  Or.inl rfl

theorem anyRel_trans {x y z : Val} (h1 : anyRel x y = true) (h2 : anyRel y z = true) :
    anyRel x z = true := rfl

instance : IsTotal LowOut lowRel := by
  constructor
  intro a b
  unfold lowRel
  exact lexRel_total _ _ _ _ dnl_total dnl_total a b

instance : IsTrans LowOut lowRel := by
  constructor
  intro a b c hab hbc
  unfold lowRel at *
  exact lexRel_trans dnl (fun x : LowOut => x.ProfitMargin) dnl (fun x : LowOut => x.Profit)
    (fun h1 h2 => dnl_trans h1 h2)
    (fun h1 h2 => dnl_antisymm h1 h2) (fun h1 h2 => dnl_trans h1 h2) hab hbc

instance : IsTotal OverOut overRel := by
  constructor
  intro a b
  unfold overRel
  exact lexRel_total _ _ _ _ dnl_total anl_total a b

instance : IsTrans OverOut overRel := by
  constructor
  intro a b c hab hbc
  unfold overRel at *
  exact lexRel_trans dnl (fun x : OverOut => x.Available_Quantity) anl
    (fun x : OverOut => x.ProfitMargin)
    (fun h1 h2 => dnl_trans h1 h2)
    (fun h1 h2 => dnl_antisymm h1 h2) (fun h1 h2 => anl_trans h1 h2) hab hbc

instance : IsTotal WorkRow fastRel := by
  constructor
  intro a b
  unfold fastRel
  exact lexRel_total _ _ _ _ dnl_total anyRel_total a b

instance : IsTrans WorkRow fastRel := by
  constructor
  intro a b c hab hbc
  unfold fastRel at *
  exact lexRel_trans dnl (fun x : WorkRow => x.SellThroughRate) anyRel
    (fun _ : WorkRow => Val.nan)
    (fun h1 h2 => dnl_trans h1 h2)
    (fun h1 h2 => dnl_antisymm h1 h2) (fun h1 h2 => anyRel_trans h1 h2) hab hbc

theorem Val.leb_right_ne_nan {a b : Val} (h : Val.leb a b = true) : b ≠ Val.nan := by
  intro e; subst e; rw [Val.leb_nan_right] at h; exact Bool.false_ne_true h

theorem Val.leb_left_ne_nan {a b : Val} (h : Val.leb a b = true) : a ≠ Val.nan := by
  intro e; subst e; rw [Val.leb_nan_left] at h; exact Bool.false_ne_true h

/-!
### Claims about the loader and the derived columns
-/

/-- Claim C1, counterexample: loading a file whose single row has
`Average_Buying_Price = 0` and `Average_Selling_Price = 100` puts
`ProfitMargin = +∞` on the enriched row (IEEE division of the nonzero
price difference by zero), which is not the missing marker.  The claim's
zero-buying-price clause is therefore false as stated. -/
theorem claim_C1_counterexample :
    load_inventory_data (some [csvC1]) =
      .ok ⟨enrichedColumns, [enrichRow (cleanRow csvC1)]⟩ ∧
    (enrichRow (cleanRow csvC1)).Average_Buying_Price = Val.num 0 ∧
    (enrichRow (cleanRow csvC1)).ProfitMargin = Val.pinf ∧
    (enrichRow (cleanRow csvC1)).ProfitMargin ≠ Val.nan := by
  have h : (enrichRow (cleanRow csvC1)).ProfitMargin = Val.pinf := by
    norm_num [enrichRow, cleanRow, csvC1, to_numeric, Val.sub, Val.div, Val.mul]
  exact ⟨rfl, rfl, h, by rw [h]; simp⟩

/-- Claim C1 (amended): for every row, `Profit = (sell − buy) × sold` and
`StockValue = qty × buy`; `ProfitMargin = ((sell − buy)/buy) × 100` whenever
`buy ≠ 0`; and when `buy = 0` the margin is the missing marker exactly if
`sell = 0` (a 0/0), while a nonzero `sell` yields `+∞` (resp. `−∞`), which
is not the missing marker. -/
theorem claim_C1_theorem (r : RawRow) (s b : ℚ)
    (hs : r.Average_Selling_Price = Val.num s)
    (hb : r.Average_Buying_Price = Val.num b) :
    (∀ t : ℚ, r.Total_Sold = Val.num t →
        (enrichRow r).Profit = Val.num ((s - b) * t)) ∧
    (∀ q : ℚ, r.Available_Quantity = Val.num q →
        (enrichRow r).StockValue = Val.num (q * b)) ∧
    (b ≠ 0 → (enrichRow r).ProfitMargin = Val.num ((s - b) / b * 100)) ∧
    (b = 0 →
      (s = 0 → (enrichRow r).ProfitMargin = Val.nan) ∧
      (0 < s → (enrichRow r).ProfitMargin = Val.pinf) ∧
      (s < 0 → (enrichRow r).ProfitMargin = Val.ninf)) := by
  refine ⟨?_, ?_, ?_, ?_⟩
  · intro t ht
    simp [enrichRow, hs, hb, ht, Val.sub, Val.mul]
  · intro q hq
    simp [enrichRow, hq, hb, Val.mul]
  · intro hbne
    norm_num [enrichRow, hs, hb, Val.sub, Val.div, Val.mul, hbne]
  · rintro rfl
    refine ⟨?_, ?_, ?_⟩
    · rintro rfl
      norm_num [enrichRow, hs, hb, Val.sub, Val.div, Val.mul]
    · intro hpos
      norm_num [enrichRow, hs, hb, Val.sub, Val.div, Val.mul, hpos, hpos.ne']
    · intro hneg
      norm_num [enrichRow, hs, hb, Val.sub, Val.div, Val.mul, hneg, hneg.ne,
        not_lt_of_lt hneg]

/-- Claim C1, witness: the amended theorem applied to the concrete row
`rawC1` (selling price 100, buying price 0, one unit sold). -/
theorem claim_C1_witness :
    (0 : ℚ) < 100 ∧ (enrichRow rawC1).ProfitMargin = Val.pinf ∧
      (enrichRow rawC1).Profit = Val.num ((100 - 0) * 1) :=
  ⟨by norm_num,
   ((claim_C1_theorem rawC1 100 0 rfl rfl).2.2.2 rfl).2.1 (by norm_num),
   (claim_C1_theorem rawC1 100 0 rfl rfl).1 1 rfl⟩

/-- Claim C4: `load_inventory_data` fails with `DataSourceNotFound` exactly
when the path does not resolve to an existing file (`none`); every existing
file loads successfully (the result is always `ok`, so no other error can
be raised); and a numeric-column value that cannot be converted to a float
becomes the missing marker through `to_numeric` rather than aborting. -/
theorem claim_C4_theorem :
    (∀ file : Option (List CsvRow),
        load_inventory_data file = .error .DataSourceNotFound ↔ file = none) ∧
    (∀ rows : List CsvRow,
        load_inventory_data (some rows) =
          .ok ⟨enrichedColumns, rows.map (fun r => enrichRow (cleanRow r))⟩) ∧
    (∀ s : String, to_numeric (Cell.nonNumeric s) = Val.nan) ∧
    (∀ (c : CsvRow) (s : String), c.Average_Buying_Price = Cell.nonNumeric s →
        (cleanRow c).Average_Buying_Price = Val.nan) := by
  refine ⟨?_, fun rows => rfl, fun s => rfl, ?_⟩
  · intro file
    cases file <;> simp [load_inventory_data]
  · intro c s h
    simp [cleanRow, h, to_numeric]

/-!
### Claims about Low-Stock-Profitable and Overstock-Low-Profit
-/

/-- Claim C2: `low_stock_profitable` returns exactly the rows with
`Available_Quantity ≤ quantity_threshold` and
`ProfitMargin ≥ margin_threshold` (a missing margin never satisfies the
`≥`), projected to the five listed columns, sorted descending by
`ProfitMargin` with `Profit` descending as tie-break, and rows tied on
both keys retain their source order (stability, phrased through filters on
the key pair). -/
theorem claim_C2_theorem (df : Frame Row) (quantity_threshold margin_threshold : ℚ) :
    (∀ r : Row, lowStockMask quantity_threshold margin_threshold r = true ↔
        (Val.leb r.Available_Quantity (Val.num quantity_threshold) = true ∧
         r.ProfitMargin ≠ Val.nan ∧
         Val.leb (Val.num margin_threshold) r.ProfitMargin = true)) ∧
    (low_stock_profitable df quantity_threshold margin_threshold).rows.Perm
      ((df.rows.filter (lowStockMask quantity_threshold margin_threshold)).map lowProj) ∧
    (low_stock_profitable df quantity_threshold margin_threshold).columns =
      ["Product_ID", "Product_Name", "Available_Quantity", "Profit", "ProfitMargin"] ∧
    (low_stock_profitable df quantity_threshold margin_threshold).rows.Pairwise
      (fun a b => dnl a.ProfitMargin b.ProfitMargin = true ∧
        (a.ProfitMargin = b.ProfitMargin → dnl a.Profit b.Profit = true)) ∧
    (∀ m p : Val,
      (low_stock_profitable df quantity_threshold margin_threshold).rows.filter
          (fun r => decide (r.ProfitMargin = m ∧ r.Profit = p)) =
        ((df.rows.filter (lowStockMask quantity_threshold margin_threshold)).map lowProj).filter
          (fun r => decide (r.ProfitMargin = m ∧ r.Profit = p))) := by
  refine ⟨?_, List.perm_insertionSort _ _, rfl, ?_, ?_⟩
  · intro r
    unfold lowStockMask
    rw [Bool.and_eq_true]
    constructor
    · rintro ⟨h1, h2⟩
      exact ⟨h1, Val.leb_right_ne_nan h2, h2⟩
    · rintro ⟨h1, _, h2⟩
      exact ⟨h1, h2⟩
  · have hs := List.sorted_insertionSort lowRel
      ((df.rows.filter (lowStockMask quantity_threshold margin_threshold)).map lowProj)
    refine List.Pairwise.imp ?_ hs
    intro a b hab
    unfold lowRel lexRel at hab
    by_cases he : a.ProfitMargin = b.ProfitMargin
    · rw [if_pos he] at hab
      exact ⟨he ▸ dnl_refl _, fun _ => hab⟩
    · rw [if_neg he] at hab
      exact ⟨hab, fun h => absurd h he⟩
  · intro m p
    refine insertionSort_filter_of_tied lowRel _ _ ?_
    intro a b ha hb
    have ha' := of_decide_eq_true ha
    have hb' := of_decide_eq_true hb
    unfold lowRel
    exact lexRel_of_tie _ _ _ _ dnl_refl (ha'.1.trans hb'.1.symm) (ha'.2.trans hb'.2.symm)

/-- Claim C7: `overstock_low_profit` returns exactly the rows with
`Available_Quantity ≥ quantity_threshold` and
`ProfitMargin ≤ margin_threshold` (a missing margin never satisfies the
`≤`), projected to the six listed columns, ordered by `Available_Quantity`
descending with `ProfitMargin` ascending as tie-break. -/
theorem claim_C7_theorem (df : Frame Row) (quantity_threshold margin_threshold : ℚ) :
    (∀ r : Row, overstockMask quantity_threshold margin_threshold r = true ↔
        (Val.leb (Val.num quantity_threshold) r.Available_Quantity = true ∧
         r.ProfitMargin ≠ Val.nan ∧
         Val.leb r.ProfitMargin (Val.num margin_threshold) = true)) ∧
    (overstock_low_profit df quantity_threshold margin_threshold).rows.Perm
      ((df.rows.filter (overstockMask quantity_threshold margin_threshold)).map overProj) ∧
    (overstock_low_profit df quantity_threshold margin_threshold).columns =
      ["Product_ID", "Product_Name", "Product_Brand", "Available_Quantity",
       "ProfitMargin", "StockValue"] ∧
    (overstock_low_profit df quantity_threshold margin_threshold).rows.Pairwise
      (fun a b => dnl a.Available_Quantity b.Available_Quantity = true ∧
        (a.Available_Quantity = b.Available_Quantity →
          anl a.ProfitMargin b.ProfitMargin = true)) := by
  refine ⟨?_, List.perm_insertionSort _ _, rfl, ?_⟩
  · intro r
    unfold overstockMask
    rw [Bool.and_eq_true]
    constructor
    · rintro ⟨h1, h2⟩
      exact ⟨h1, Val.leb_left_ne_nan h2, h2⟩
    · rintro ⟨h1, _, h2⟩
      exact ⟨h1, h2⟩
  · have hs := List.sorted_insertionSort overRel
      ((df.rows.filter (overstockMask quantity_threshold margin_threshold)).map overProj)
    refine List.Pairwise.imp ?_ hs
    intro a b hab
    unfold overRel lexRel at hab
    by_cases he : a.Available_Quantity = b.Available_Quantity
    · rw [if_pos he] at hab
      exact ⟨he ▸ dnl_refl _, fun _ => hab⟩
    · rw [if_neg he] at hab
      exact ⟨hab, fun h => absurd h he⟩

/-!
### Claims about Fast-Moving
-/

/-- Claim C5: every output row of `fast_moving_products` comes from an
input row with `Average_Stock_Level > 0`,
`Monthly_Sale_Quantity ≥ min_monthly_sales` and
`Total_Sold / Average_Stock_Level ≥ velocity_threshold`; a row whose stock
level satisfies `≤ 0` fails the pre-filter (so it cannot appear); and the
output is ordered descending by `SellThroughRate`. -/
theorem claim_C5_theorem (df : Frame Row) (velocity_threshold min_monthly_sales : ℚ) :
    (∀ o ∈ (fast_moving_products df velocity_threshold min_monthly_sales).rows,
       ∃ r, r ∈ df.rows ∧ o = fastProj (assignSTR r) ∧
         Val.ltb (Val.num 0) r.Average_Stock_Level = true ∧
         Val.leb (Val.num min_monthly_sales) r.Monthly_Sale_Quantity = true ∧
         Val.leb (Val.num velocity_threshold)
           (Val.div r.Total_Sold r.Average_Stock_Level) = true ∧
         o.SellThroughRate = Val.div r.Total_Sold r.Average_Stock_Level) ∧
    (∀ r ∈ df.rows, Val.leb r.Average_Stock_Level (Val.num 0) = true →
       fastPre min_monthly_sales r = false) ∧
    (fast_moving_products df velocity_threshold min_monthly_sales).rows.Pairwise
      (fun a b => dnl a.SellThroughRate b.SellThroughRate = true) := by
  refine ⟨?_, ?_, ?_⟩
  · intro o ho
    have ho' : o ∈ (List.insertionSort fastRel
        ((workingRows df min_monthly_sales).filter
          (fun w => Val.leb (Val.num velocity_threshold) w.SellThroughRate))).map fastProj := ho
    obtain ⟨w, hw, rfl⟩ := List.mem_map.mp ho'
    have hw2 : w ∈ (workingRows df min_monthly_sales).filter
        (fun x => Val.leb (Val.num velocity_threshold) x.SellThroughRate) :=
      (List.perm_insertionSort fastRel _).mem_iff.mp hw
    obtain ⟨hwork, hstr⟩ := List.mem_filter.mp hw2
    obtain ⟨r, hrmem, rfl⟩ := List.mem_map.mp hwork
    obtain ⟨hrdf, hpre⟩ := List.mem_filter.mp hrmem
    rw [fastPre, Bool.and_eq_true] at hpre
    exact ⟨r, hrdf, rfl, hpre.1, hpre.2, hstr, rfl⟩
  · intro r _ hle
    rw [fastPre, Val.not_ltb_of_leb hle, Bool.false_and]
  · show ((List.insertionSort fastRel
      ((workingRows df min_monthly_sales).filter
        (fun w => Val.leb (Val.num velocity_threshold) w.SellThroughRate))).map
          fastProj).Pairwise
      (fun a b => dnl a.SellThroughRate b.SellThroughRate = true)
    rw [List.pairwise_map]
    refine List.Pairwise.imp ?_ (List.sorted_insertionSort fastRel _)
    intro a b hab
    unfold fastRel lexRel at hab
    show dnl a.SellThroughRate b.SellThroughRate = true
    by_cases he : a.SellThroughRate = b.SellThroughRate
    · exact he ▸ dnl_refl _
    · rw [if_neg he] at hab
      exact hab

/-- Claim C6: every row surviving the pre-filter of `fast_moving_products`
has an `Average_Stock_Level` that is neither the missing marker nor zero —
it is `+∞` or a strictly positive rational — so the division computing
`SellThroughRate` on `working_df` never takes its division-by-zero or
missing-divisor branch. -/
theorem claim_C6_theorem (df : Frame Row) (min_monthly_sales : ℚ) (w : WorkRow)
    (hw : w ∈ workingRows df min_monthly_sales) :
    w.Average_Stock_Level ≠ Val.nan ∧
    w.Average_Stock_Level ≠ Val.num 0 ∧
    (w.Average_Stock_Level = Val.pinf ∨
      ∃ q : ℚ, w.Average_Stock_Level = Val.num q ∧ 0 < q) ∧
    w.SellThroughRate = Val.div w.Total_Sold w.Average_Stock_Level := by
  obtain ⟨r, hrmem, rfl⟩ := List.mem_map.mp hw
  obtain ⟨_, hpre⟩ := List.mem_filter.mp hrmem
  rw [fastPre, Bool.and_eq_true] at hpre
  have hpos : r.Average_Stock_Level = Val.pinf ∨
      ∃ q : ℚ, r.Average_Stock_Level = Val.num q ∧ 0 < q := by
    have h := hpre.1
    cases hv : r.Average_Stock_Level with
    | nan => rw [hv] at h; exact absurd h (by simp [Val.ltb])
    | ninf => rw [hv] at h; exact absurd h (by simp [Val.ltb])
    | pinf => exact Or.inl rfl
    | num q =>
        rw [hv] at h
        refine Or.inr ⟨q, rfl, ?_⟩
        simpa [Val.ltb] using h
  refine ⟨?_, ?_, hpos, rfl⟩
  · show r.Average_Stock_Level ≠ Val.nan
    rcases hpos with h | ⟨q, hq, _⟩
    · rw [h]; simp
    · rw [hq]; simp
  · show r.Average_Stock_Level ≠ Val.num 0
    rcases hpos with h | ⟨q, hq, hq0⟩
    · rw [h]; simp
    · rw [hq]
      intro he
      rw [Val.num.injEq] at he
      exact absurd (he ▸ hq0) (lt_irrefl 0)

/-- Claim C6, witness: the theorem applied to the concrete working row of
`sampleFrame` (stock level 4, monthly sales 50). -/
theorem claim_C6_witness :
    wC6.Average_Stock_Level ≠ Val.nan ∧
    wC6.Average_Stock_Level ≠ Val.num 0 ∧
    (wC6.Average_Stock_Level = Val.pinf ∨
      ∃ q : ℚ, wC6.Average_Stock_Level = Val.num q ∧ 0 < q) ∧
    wC6.SellThroughRate = Val.div wC6.Total_Sold wC6.Average_Stock_Level :=
  claim_C6_theorem sampleFrame 40 wC6 (by
    norm_num [workingRows, sampleFrame, fastPre, enrichRow, raw1, raw2, mkRaw,
      Val.sub, Val.mul, Val.div, Val.ltb, Val.leb, List.filter, wC6, assignSTR])

/-!
### Claims about Brand-Summary
-/

/-- Claim C3: `brand_summary` produces one output row per distinct
`Product_Brand` value of the input (the missing brand included), each
brand appearing exactly once, and on each output row `TotalProfit` is the
group's `Profit` sum, `TotalStockValue` the group's `StockValue` sum,
`AvgProfitMargin` the group's mean of `ProfitMargin` with missing values
excluded, and `SKUCount` the number of distinct present `Product_ID`
values of the group. -/
theorem claim_C3_theorem (df : Frame Row) :
    ((brand_summary df).rows.map (fun g => g.Product_Brand)).Nodup ∧
    (∀ b : Option String,
       b ∈ (brand_summary df).rows.map (fun g => g.Product_Brand) ↔
         b ∈ df.rows.map (fun r => r.Product_Brand)) ∧
    (∀ g ∈ (brand_summary df).rows,
       g.TotalProfit =
         nansum ((groupRows df.rows g.Product_Brand).map (fun r => r.Profit)) ∧
       g.TotalStockValue =
         nansum ((groupRows df.rows g.Product_Brand).map (fun r => r.StockValue)) ∧
       g.AvgProfitMargin =
         nanmean ((groupRows df.rows g.Product_Brand).map (fun r => r.ProfitMargin)) ∧
       g.SKUCount =
         nunique ((groupRows df.rows g.Product_Brand).map (fun r => r.Product_ID))) := by
  have hperm : (brand_summary df).rows.Perm
      (((df.rows.map (fun r => r.Product_Brand)).dedup).map (brandAgg df.rows)) :=
    List.perm_insertionSort _ _
  have hkey : (((df.rows.map (fun r => r.Product_Brand)).dedup).map
      (brandAgg df.rows)).map (fun g => g.Product_Brand) =
      (df.rows.map (fun r => r.Product_Brand)).dedup := by
    rw [List.map_map]
    have hcomp : ((fun g : BrandRow => g.Product_Brand) ∘ brandAgg df.rows) =
        fun b => b := rfl
    rw [hcomp, List.map_id']
  have hmapperm : ((brand_summary df).rows.map (fun g => g.Product_Brand)).Perm
      ((df.rows.map (fun r => r.Product_Brand)).dedup) := by
    have h := hperm.map (fun g => g.Product_Brand)
    rwa [hkey] at h
  refine ⟨?_, ?_, ?_⟩
  · exact hmapperm.nodup_iff.mpr (List.nodup_dedup _)
  · intro b
    rw [hmapperm.mem_iff, List.mem_dedup]
  · intro g hg
    have hg2 := hperm.mem_iff.mp hg
    obtain ⟨b, _, rfl⟩ := List.mem_map.mp hg2
    exact ⟨rfl, rfl, rfl, rfl⟩

/-- Claim C10: a brand group whose margins are all missing still appears
in the roll-up, with its profit and stock-value sums and its SKU count,
while its `AvgProfitMargin` is the missing marker. -/
theorem claim_C10_theorem (df : Frame Row) (b : Option String)
    (hb : b ∈ df.rows.map (fun r => r.Product_Brand))
    (hall : ∀ r ∈ groupRows df.rows b, r.ProfitMargin = Val.nan) :
    ∃ g ∈ (brand_summary df).rows,
      g.Product_Brand = b ∧ g.AvgProfitMargin = Val.nan ∧
      g.TotalProfit = nansum ((groupRows df.rows b).map (fun r => r.Profit)) ∧
      g.TotalStockValue =
        nansum ((groupRows df.rows b).map (fun r => r.StockValue)) ∧
      g.SKUCount = nunique ((groupRows df.rows b).map (fun r => r.Product_ID)) := by
  have hperm : (brand_summary df).rows.Perm
      (((df.rows.map (fun r => r.Product_Brand)).dedup).map (brandAgg df.rows)) :=
    List.perm_insertionSort _ _
  refine ⟨brandAgg df.rows b, ?_, rfl, ?_, rfl, rfl, rfl⟩
  · exact hperm.mem_iff.mpr (List.mem_map_of_mem _ (List.mem_dedup.mpr hb))
  · show nanmean ((groupRows df.rows b).map (fun r => r.ProfitMargin)) = Val.nan
    have hnil : ((groupRows df.rows b).map (fun r => r.ProfitMargin)).filter
        (fun v => !v.isNan) = [] := by
      rw [List.filter_eq_nil_iff]
      intro v hv
      obtain ⟨r, hr, rfl⟩ := List.mem_map.mp hv
      rw [hall r hr]
      simp [Val.isNan]
    rw [nanmean, hnil]
    rfl

/-- Claim C10, witness: in `sampleFrame3` the "NoBuy" group consists of
the single row `raw3`, whose margin is 0/0 and hence missing. -/
theorem claim_C10_witness :
    ∃ g ∈ (brand_summary sampleFrame3).rows,
      g.Product_Brand = some "NoBuy" ∧ g.AvgProfitMargin = Val.nan ∧
      g.TotalProfit =
        nansum ((groupRows sampleFrame3.rows (some "NoBuy")).map (fun r => r.Profit)) ∧
      g.TotalStockValue =
        nansum ((groupRows sampleFrame3.rows (some "NoBuy")).map (fun r => r.StockValue)) ∧
      g.SKUCount =
        nunique ((groupRows sampleFrame3.rows (some "NoBuy")).map (fun r => r.Product_ID)) :=
  claim_C10_theorem sampleFrame3 (some "NoBuy")
    (by simp [sampleFrame3, enrichRow, raw1, raw3, mkRaw])
    (by
      intro r hr
      have hmem : r ∈ [enrichRow raw1, enrichRow raw3] := List.mem_of_mem_filter hr
      have hbr : r.Product_Brand = some "NoBuy" :=
        of_decide_eq_true (List.mem_filter.mp hr).2
      rcases List.mem_cons.mp hmem with h1 | h2
      · subst h1
        have hcontra : some "Acme" = some "NoBuy" := hbr
        exact absurd hcontra (by decide)
      · rw [List.mem_singleton.mp h2]
        norm_num [enrichRow, raw3, mkRaw, Val.sub, Val.div, Val.mul])

/-!
### Empty results and absence of mutation
-/

/-- Claim C8: whenever the thresholds let no row qualify, each insight
function returns a zero-row frame that still carries its full projected
column set (and, being a total function, raises nothing). -/
theorem claim_C8_theorem (df : Frame Row) (qt mt vt mms : ℚ) :
    ((∀ r ∈ df.rows, lowStockMask qt mt r = false) →
      (low_stock_profitable df qt mt).rows = [] ∧
      (low_stock_profitable df qt mt).columns =
        ["Product_ID", "Product_Name", "Available_Quantity", "Profit", "ProfitMargin"]) ∧
    ((∀ r ∈ df.rows, overstockMask qt mt r = false) →
      (overstock_low_profit df qt mt).rows = [] ∧
      (overstock_low_profit df qt mt).columns =
        ["Product_ID", "Product_Name", "Product_Brand", "Available_Quantity",
         "ProfitMargin", "StockValue"]) ∧
    ((∀ w ∈ workingRows df mms, Val.leb (Val.num vt) w.SellThroughRate = false) →
      (fast_moving_products df vt mms).rows = [] ∧
      (fast_moving_products df vt mms).columns =
        ["Product_ID", "Product_Name", "Monthly_Sale_Quantity", "Average_Stock_Level",
         "SellThroughRate", "ProfitMargin"]) ∧
    (df.rows = [] →
      (brand_summary df).rows = [] ∧
      (brand_summary df).columns =
        ["Product_Brand", "TotalProfit", "TotalStockValue", "AvgProfitMargin", "SKUCount"]) := by
  refine ⟨?_, ?_, ?_, ?_⟩
  · intro h
    refine ⟨?_, rfl⟩
    show List.insertionSort lowRel ((df.rows.filter (lowStockMask qt mt)).map lowProj) = []
    have hnil : df.rows.filter (lowStockMask qt mt) = [] := by
      rw [List.filter_eq_nil_iff]
      intro r hr
      simp [h r hr]
    rw [hnil]
    rfl
  · intro h
    refine ⟨?_, rfl⟩
    show List.insertionSort overRel ((df.rows.filter (overstockMask qt mt)).map overProj) = []
    have hnil : df.rows.filter (overstockMask qt mt) = [] := by
      rw [List.filter_eq_nil_iff]
      intro r hr
      simp [h r hr]
    rw [hnil]
    rfl
  · intro h
    refine ⟨?_, rfl⟩
    show ((List.insertionSort fastRel
      ((workingRows df mms).filter
        (fun w => Val.leb (Val.num vt) w.SellThroughRate))).map fastProj) = []
    have hnil : (workingRows df mms).filter
        (fun w => Val.leb (Val.num vt) w.SellThroughRate) = [] := by
      rw [List.filter_eq_nil_iff]
      intro w hw
      simp [h w hw]
    rw [hnil]
    rfl
  · intro h
    refine ⟨?_, rfl⟩
    show List.insertionSort brandRel
      (((df.rows.map (fun r => r.Product_Brand)).dedup).map (brandAgg df.rows)) = []
    rw [h]
    rfl

/-- Claim C8, witness: the theorem applied to the empty enriched table,
where every hypothesis is vacuous. -/
theorem claim_C8_witness :
    (low_stock_profitable emptyFrame 0 0).rows = [] ∧
    (overstock_low_profit emptyFrame 0 0).rows = [] ∧
    (fast_moving_products emptyFrame 0 0).rows = [] ∧
    (brand_summary emptyFrame).rows = [] :=
  ⟨((claim_C8_theorem emptyFrame 0 0 0 0).1 (by simp [emptyFrame])).1,
   ((claim_C8_theorem emptyFrame 0 0 0 0).2.1 (by simp [emptyFrame])).1,
   ((claim_C8_theorem emptyFrame 0 0 0 0).2.2.1 (by simp [workingRows, emptyFrame])).1,
   ((claim_C8_theorem emptyFrame 0 0 0 0).2.2.2 rfl).1⟩

/-- Claim C9: each insight call returns a fresh sub-table and leaves the
caller's enriched table exactly as it was — the first component of each
`*_call` is the pure insight result and the second is the unchanged input
frame; in particular the transient `SellThroughRate` column of
`fast_moving_products` is never added to the input table's column set. -/
theorem claim_C9_theorem (df : Frame Row) (qt mt vt mms : ℚ) :
    (low_stock_profitable_call df qt mt).2 = df ∧
    (overstock_low_profit_call df qt mt).2 = df ∧
    (fast_moving_products_call df vt mms).2 = df ∧
    (brand_summary_call df).2 = df ∧
    (low_stock_profitable_call df qt mt).1 = low_stock_profitable df qt mt ∧
    (overstock_low_profit_call df qt mt).1 = overstock_low_profit df qt mt ∧
    (fast_moving_products_call df vt mms).1 = fast_moving_products df vt mms ∧
    (brand_summary_call df).1 = brand_summary df ∧
    ("SellThroughRate" ∉ df.columns →
      "SellThroughRate" ∉ (fast_moving_products_call df vt mms).2.columns) :=
  ⟨rfl, rfl, rfl, rfl, rfl, rfl, rfl, rfl, fun h => h⟩

/-- Claim C9, witness: the theorem applied to the concrete sample table,
whose column set does not contain `SellThroughRate`. -/
theorem claim_C9_witness :
    (fast_moving_products_call sampleFrame (6 / 5) 40).2 = sampleFrame ∧
    "SellThroughRate" ∉ (fast_moving_products_call sampleFrame (6 / 5) 40).2.columns :=
  ⟨(claim_C9_theorem sampleFrame 60 20 (6 / 5) 40).2.2.1,
   (claim_C9_theorem sampleFrame 60 20 (6 / 5) 40).2.2.2.2.2.2.2.2
     (by simp [sampleFrame, enrichedColumns, NUMERIC_COLUMNS])⟩
